import Mathlib

/-!
Shallow embedding of `job_agent.py` (a single-pass job-posting watcher) and
proofs of its specified properties.

Strings are modelled as `List Char`; Python's `str.lower` is modelled
per-character with `Char.toLower` (ASCII lowering), and Python's substring
test `a in b` as `List.IsInfix`.  Machine words inside the SHA-1 digest are
`Nat` reduced `% 2 ^ 32` wherever the Python `hashlib` arithmetic wraps.
External collaborators (HTTP, RSS parsing, Telegram, SMTP) are oracles in an
`Env` record; a call that may raise is an `Except` value in the oracle.
-/

abbrev Str := List Char

def strOf (s : String) : Str := s.toList

/-- Python `s.lower()`, per character (ASCII case folding). -/
def pyLower (s : Str) : Str := s.map Char.toLower

/-- Python `a or b` on strings: `a` when truthy (non-empty), else `b`. -/
def pyOr (a b : Str) : Str := if a = [] then b else a

/-- Truthiness of `dict.get(key)` for a `bool`-valued dict: absent (`None`)
and `False` are falsy, `True` is truthy. -/
def truthyOpt : Option Bool → Bool
  | some b => b
  | none => false

/-- CONFIG constant `MIN_KEYWORD_MATCH = 1` of `job_agent.py`. -/
def MIN_KEYWORD_MATCH : Nat := 1

/-- `keywords_match(text, keywords, min_match)` from `job_agent.py`:
lowercase the text, keep the keywords whose lowercase form is a substring,
return them iff at least `min_match` matched, else the empty list.
(`(text or "")` is the identity on this model: `[] or "" = []`.) -/
def keywords_match (text : Str) (keywords : List Str) (min_match : Nat) : List Str :=
  let text_l := pyLower text
  let found := keywords.filter (fun k => decide (pyLower k <:+: text_l))
  if min_match ≤ found.length then found else []

/-! ### SHA-1 (`hashlib.sha1(...).hexdigest()`), over byte lists -/

/-- Rotate a 32-bit word (a `Nat < 2 ^ 32`) left by `b` bits. -/
def rotl32 (x b : Nat) : Nat :=
  ((x <<< b) % 4294967296) ||| (x >>> (32 - b))

/-- The 8-byte big-endian encoding of a 64-bit length. -/
def bytesBE8 (n : Nat) : List Nat :=
  [(n >>> 56) % 256, (n >>> 48) % 256, (n >>> 40) % 256, (n >>> 32) % 256,
   (n >>> 24) % 256, (n >>> 16) % 256, (n >>> 8) % 256, n % 256]

/-- SHA-1 padding: append `0x80`, zero bytes up to 56 mod 64, then the
bit length as 8 big-endian bytes. -/
def sha1pad (msg : List Nat) : List Nat :=
  msg ++ [128] ++ List.replicate ((119 - msg.length % 64) % 64) 0 ++ bytesBE8 (8 * msg.length)

/-- Split a byte list into 64-byte chunks; structural recursion on a fuel
bound (the list length) so the definition reduces in the kernel. -/
def chunks64Go : Nat → List Nat → List (List Nat)
  | _, [] => []
  | 0, _ => []
  | fuel + 1, l => l.take 64 :: chunks64Go fuel (l.drop 64)

/-- Split a byte list into 64-byte chunks. -/
def chunks64 (l : List Nat) : List (List Nat) := chunks64Go l.length l

/-- Big-endian 32-bit words of a byte list. -/
def wordsBE : List Nat → List Nat
  | b0 :: b1 :: b2 :: b3 :: rest =>
      ((b0 % 256) * 16777216 + (b1 % 256) * 65536 + (b2 % 256) * 256 + b3 % 256) :: wordsBE rest
  | _ => []

/-- One step of the SHA-1 message-schedule extension, on the reversed
word list (most recent word first): `w[i] = rotl1 (w[i-3] ^^^ w[i-8] ^^^ w[i-14] ^^^ w[i-16])`. -/
def extendStep (ws : List Nat) : List Nat :=
  rotl32 (Nat.xor (Nat.xor (ws.getD 2 0) (ws.getD 7 0)) (Nat.xor (ws.getD 13 0) (ws.getD 15 0))) 1 :: ws

def extendIter (ws : List Nat) : Nat → List Nat
  | 0 => ws
  | n + 1 => extendStep (extendIter ws n)

/-- Extend 16 schedule words to 80. -/
def sha1Extend (w16 : List Nat) : List Nat :=
  (extendIter w16.reverse 64).reverse

structure Sha1State where
  a : Nat
  b : Nat
  c : Nat
  d : Nat
  e : Nat

def sha1F (i b c d : Nat) : Nat :=
  if i < 20 then Nat.lor (Nat.land b c) (Nat.land (Nat.xor 4294967295 b) d)
  else if i < 40 then Nat.xor (Nat.xor b c) d
  else if i < 60 then Nat.lor (Nat.lor (Nat.land b c) (Nat.land b d)) (Nat.land c d)
  else Nat.xor (Nat.xor b c) d

def sha1K (i : Nat) : Nat :=
  if i < 20 then 1518500249
  else if i < 40 then 1859775393
  else if i < 60 then 2400959708
  else 3395469782

def sha1Round (st : Sha1State) (iw : Nat × Nat) : Sha1State :=
  let temp := (rotl32 st.a 5 + sha1F iw.1 st.b st.c st.d + st.e + sha1K iw.1 + iw.2) % 4294967296
  ⟨temp, st.a, rotl32 st.b 30, st.c, st.d⟩

structure Sha1H where
  h0 : Nat
  h1 : Nat
  h2 : Nat
  h3 : Nat
  h4 : Nat

def sha1ProcessBlock (h : Sha1H) (block : List Nat) : Sha1H :=
  let ws := sha1Extend (wordsBE block)
  let st := ((List.range 80).zip ws).foldl sha1Round ⟨h.h0, h.h1, h.h2, h.h3, h.h4⟩
  ⟨(h.h0 + st.a) % 4294967296, (h.h1 + st.b) % 4294967296, (h.h2 + st.c) % 4294967296,
   (h.h3 + st.d) % 4294967296, (h.h4 + st.e) % 4294967296⟩

def sha1Init : Sha1H := ⟨1732584193, 4023233417, 2562383102, 271733878, 3285377520⟩

/-- The four big-endian bytes of a 32-bit word. -/
def wordBytesBE (w : Nat) : List Nat :=
  [(w >>> 24) % 256, (w >>> 16) % 256, (w >>> 8) % 256, w % 256]

/-- The 20-byte SHA-1 digest of a byte list. -/
def sha1Bytes (msg : List Nat) : List Nat :=
  let h := (chunks64 (sha1pad msg)).foldl sha1ProcessBlock sha1Init
  wordBytesBE h.h0 ++ wordBytesBE h.h1 ++ wordBytesBE h.h2 ++ wordBytesBE h.h3 ++ wordBytesBE h.h4

def hexChar (n : Nat) : Char := ("0123456789abcdef".toList).getD n '0'

/-- Lowercase hexadecimal rendering of a byte list (`.hexdigest()`). -/
def hexOfBytes : List Nat → Str
  | [] => []
  | b :: t => hexChar (b / 16) :: hexChar (b % 16) :: hexOfBytes t

/-- UTF-8 encoding of one character (`str.encode('utf-8')`, per code point). -/
def utf8EncodeChar (c : Char) : List Nat :=
  let n := c.toNat
  if n < 128 then [n]
  else if n < 2048 then [192 ||| (n >>> 6), 128 ||| (n % 64)]
  else if n < 65536 then [224 ||| (n >>> 12), 128 ||| ((n >>> 6) % 64), 128 ||| (n % 64)]
  else [240 ||| (n >>> 18), 128 ||| ((n >>> 12) % 64), 128 ||| ((n >>> 6) % 64), 128 ||| (n % 64)]

/-- `make_id(text)` from `job_agent.py`:
`hashlib.sha1((text or "").encode('utf-8')).hexdigest()`.
(`text or ""` is the identity here, since `"" or "" = ""`.) -/
def make_id (text : Str) : Str := hexOfBytes (sha1Bytes (text.flatMap utf8EncodeChar))

/-! ### Seen-store stub (`init_db`, `seen_contains`, `mark_seen`) -/

/-- CONFIG constant `DB_PATH` of `job_agent.py`. -/
def DB_PATH : Str := strOf "jobs_seen.db"

/-- `init_db(path)`: DB support is disabled, so it returns `None`. -/
def init_db (_path : Str) : Option Unit := none

/-- `seen_contains(conn, _id)`: with the DB disabled, always `False`. -/
def seen_contains (_conn : Option Unit) (_id : Str) : Bool := false

/-- `mark_seen(conn, _id, title, link, source)`: a no-op when the DB is
disabled.  The Python function returns `None` and performs no writes; here it
returns the store handle so that "no effect on the store" is a statable
equation. -/
def mark_seen (conn : Option Unit) (_id _title _link _source : Str) : Option Unit := conn

/-! ### Data model and external collaborators -/

/-- One item of the JSON array returned by the RemoteOK API: a dict with
optional fields (`none` = key absent). -/
structure ApiDict where
  position : Option Str
  title : Option Str
  company : Option Str
  description : Option Str
  url : Option Str
  apply_url : Option Str
deriving DecidableEq

/-- A JSON array element: either not a dict (skipped by the loop) or a dict. -/
inductive ApiItem where
  | nonDict
  | dict (d : ApiDict)
deriving DecidableEq

/-- One parsed feed entry; `entry.get(key, '')` reads an optional field. -/
structure Entry where
  title : Option Str
  link : Option Str
  summary : Option Str
deriving DecidableEq

/-- The job dict built by the fetchers
(`{'id', 'title', 'link', 'description', 'source', 'matches'}`). -/
structure JobRecord where
  id : Str
  title : Str
  link : Str
  description : Str
  source : Str
  matchedKeywords : List Str
deriving DecidableEq

/-- The external collaborators of one run, as oracles.  A call that can raise
is an `Except` value: `.error` stands for any exception from the library call
(network, parse, or format error). -/
structure Env where
  /-- `requests.get("https://remoteok.com/api").json()`: the parsed array, or
  any raised exception. -/
  remoteok_api : Except Str (List ApiItem)
  /-- `feedparser.parse(feed_url).entries` per feed URL, or any raised
  exception. -/
  rss : Str → Except Str (List Entry)
  /-- outcome of `requests.post` to the Telegram endpoint
  (plus `raise_for_status`). -/
  telegram_post : Except Str Unit
  /-- outcome of the SMTP session (`SMTP/starttls/login/sendmail/quit`). -/
  smtp_send : Except Str Unit

/-! ### Source fetchers -/

/-- `results.append(r)` guarded by the loop body's conditional: extend the
accumulator when a record was produced. -/
def appendOpt {β : Type} (rs : List β) (x : Option β) : List β :=
  match x with
  | none => rs
  | some r => rs ++ [r]

/-- The loop body of `fetch_remoteok` for one array item: `None` when the item
is skipped (not a dict, no `position`/`title` key, or no keyword match), else
the job dict appended to `results`. -/
def remoteokItemRecord (keywords : List Str) : ApiItem → Option JobRecord
  | .nonDict => none
  | .dict d =>
    if d.position.isSome || d.title.isSome then
      let title := pyOr (d.position.getD []) (d.title.getD [])
      let description := d.description.getD []
      let company := d.company.getD []
      let link := pyOr (d.url.getD []) (d.apply_url.getD [])
      let combined := title ++ strOf " " ++ company ++ strOf " " ++ description
      let matched := keywords_match combined keywords MIN_KEYWORD_MATCH
      if matched = [] then none
      else some ⟨make_id (pyOr link title), title, link, description, strOf "remoteok", matched⟩
    else none

/-- `fetch_remoteok(keywords)`: one HTTP GET of the RemoteOK API; on success
iterate the array appending matching records, on any exception log and return
`[]`. -/
def fetch_remoteok (env : Env) (keywords : List Str) : List JobRecord :=
  match env.remoteok_api with
  | .error _ => []
  | .ok data =>
      data.foldl (fun results item => appendOpt results (remoteokItemRecord keywords item)) []

/-- `f"{title} {summary}"`, with missing fields read as `''`. -/
def entryCombined (e : Entry) : Str :=
  e.title.getD [] ++ strOf " " ++ e.summary.getD []

/-- The loop body of `fetch_rss_feed` for one entry: `None` when the keyword
match fails, else the job dict appended to `results`. -/
def rssEntryRecord (feed_url : Str) (keywords : List Str) (e : Entry) : Option JobRecord :=
  let title := e.title.getD []
  let link := e.link.getD []
  let summary := e.summary.getD []
  let matched := keywords_match (entryCombined e) keywords MIN_KEYWORD_MATCH
  if matched = [] then none
  else some ⟨make_id (pyOr link title), title, link, summary, feed_url, matched⟩

/-- `fetch_rss_feed(feed_url, keywords)`: parse one feed; on success iterate
the entries appending matching records, on any exception log and return `[]`. -/
def fetch_rss_feed (env : Env) (feed_url : Str) (keywords : List Str) : List JobRecord :=
  match env.rss feed_url with
  | .error _ => []
  | .ok entries =>
      entries.foldl (fun results e => appendOpt results (rssEntryRecord feed_url keywords e)) []

/-- The fixed feed URL of `fetch_indeed_rss`. -/
def INDEED_FEED_URL : Str := strOf "https://www.indeed.com/rss?q=python+django"

/-- `fetch_indeed_rss(keywords)`: the single-feed fetcher on the fixed
Indeed query URL. -/
def fetch_indeed_rss (env : Env) (keywords : List Str) : List JobRecord :=
  fetch_rss_feed env INDEED_FEED_URL keywords

/-- `fetch_custom_feeds(feeds, keywords)`: extend `results` with the
single-feed fetcher's output for each configured feed URL in order. -/
def fetch_custom_feeds (env : Env) (feeds : List Str) (keywords : List Str) : List JobRecord :=
  feeds.foldl (fun results f => results ++ fetch_rss_feed env f keywords) []

/-! ### Notifiers -/

/-- `notify_telegram(bot_token, chat_id, text)`: `False` when either credential
is falsy; otherwise post, `True` on success, `False` on any exception. -/
def notify_telegram (env : Env) (bot_token chat_id _text : Str) : Bool :=
  if bot_token = [] ∨ chat_id = [] then false
  else
    match env.telegram_post with
    | .ok _ => true
    | .error _ => false

/-- `notify_email(...)`: build the message and run the SMTP session; `True` on
success, `False` on any exception. -/
def notify_email (env : Env) (_smtp_host : Str) (_smtp_port : Nat)
    (_user _password _frm _to _subject _body : Str) : Bool :=
  match env.smtp_send with
  | .ok _ => true
  | .error _ => false

/-! ### Orchestrator (`run_once`) -/

/-- The CONFIG block of `job_agent.py`, as an immutable value (the claims
quantify over its settings).  `EMAIL_FROM = SMTP_USER` in the source, so no
separate field is kept for it. -/
structure Sources where
  /-- `SOURCES.get('remoteok')` (`none` = key absent). -/
  remoteok : Option Bool
  /-- `SOURCES.get('indeed_rss')` (absent in the shipped CONFIG). -/
  indeed_rss : Option Bool
  /-- `SOURCES.get('custom_feeds')` (present and `True` in the shipped CONFIG,
  but never read by `run_once`). -/
  custom_feeds : Option Bool
deriving DecidableEq

structure Config where
  keywords : List Str
  sources : Sources
  /-- `CUSTOM_FEEDS`, the configured feed URL list. -/
  custom_feeds : List Str
  telegram_bot_token : Str
  telegram_chat_id : Str
  smtp_host : Str
  smtp_port : Nat
  smtp_user : Str
  smtp_pass : Str
  email_to : Str

inductive FetcherId where
  | remoteok
  | indeed_rss
  | custom_feeds
deriving DecidableEq, BEq

/-- Observables of the summary-and-notification tail of `run_once`. -/
structure NotifyOutcome where
  logs : List Str
  telegramAttempted : Bool
  telegramSent : Bool
  emailAttempted : Bool
  emailSent : Bool
deriving DecidableEq

/-- Observables of one `run_once` call: which fetchers ran, the aggregated
batch, the print transcript, and the notification outcome. -/
structure RunResult where
  fetcherCalls : List FetcherId
  found_new : List JobRecord
  logs : List Str
  notify : NotifyOutcome
deriving DecidableEq

/-- The tail of `run_once` after `found_new` is gathered: early return on an
empty batch, else build the message, try Telegram first (only with both
credentials truthy), then email (only if not yet `sent` and both SMTP
credentials truthy), and report when nothing was `sent`.  Note the source
checks `if not sent:` — the flag set only by Telegram — so the "not sent" line
is printed even when the email succeeded. -/
def notify_phase (cfg : Config) (env : Env) (found_new : List JobRecord) : NotifyOutcome :=
  if found_new = [] then
    { logs := [strOf "No new matching jobs found."]
      telegramAttempted := false, telegramSent := false
      emailAttempted := false, emailSent := false }
  else
    let body := List.intercalate (strOf "<br><br>") (found_new.map fun j =>
      strOf "<b>" ++ j.title ++ strOf "</b>\nMatches: " ++
        List.intercalate (strOf ", ") j.matchedKeywords ++ strOf "\n" ++ j.link)
    let subject := strOf (toString found_new.length) ++ strOf " New Job(s) Matching Your Keywords"
    let tgAttempt := !cfg.telegram_bot_token.isEmpty && !cfg.telegram_chat_id.isEmpty
    let text := List.intercalate (strOf "\n\n") (found_new.map fun j =>
      j.title ++ strOf " - " ++ j.link ++ strOf "\nMatches: " ++
        List.intercalate (strOf ", ") j.matchedKeywords)
    let sent := if tgAttempt then
        notify_telegram env cfg.telegram_bot_token cfg.telegram_chat_id text
      else false
    let emAttempt := !sent && !cfg.smtp_user.isEmpty && !cfg.smtp_pass.isEmpty
    let sent_email := if emAttempt then
        notify_email env cfg.smtp_host cfg.smtp_port cfg.smtp_user cfg.smtp_pass
          cfg.smtp_user cfg.email_to subject body
      else false
    { logs := [strOf "Found " ++ strOf (toString found_new.length) ++ strOf " new matching jobs"] ++
        (if sent then [strOf "Notified via Telegram"] else []) ++
        (if sent_email then [strOf "Notified via Email"] else []) ++
        (if sent then [] else
          [strOf "Notifications not sent: configure TELEGRAM or SMTP settings in the script."])
      telegramAttempted := tgAttempt, telegramSent := sent
      emailAttempted := emAttempt, emailSent := sent_email }

/-- `run_once()`: fetch from each enabled source (RemoteOK and Indeed RSS are
gated by their `SOURCES` flags; the custom feeds by `if CUSTOM_FEEDS:`, the
truthiness of the feed list itself), `mark_seen` each job (a no-op), append it
to `found_new`, then run the notification tail. -/
def run_once (cfg : Config) (env : Env) : RunResult :=
  let conn : Option Unit := none
  let roJobs := if truthyOpt cfg.sources.remoteok then fetch_remoteok env cfg.keywords else []
  let conn := roJobs.foldl (fun c j => mark_seen c j.id j.title j.link j.source) conn
  let inJobs := if truthyOpt cfg.sources.indeed_rss then fetch_indeed_rss env cfg.keywords else []
  let conn := inJobs.foldl (fun c j => mark_seen c j.id j.title j.link j.source) conn
  let cfJobs := if cfg.custom_feeds = [] then [] else
    fetch_custom_feeds env cfg.custom_feeds cfg.keywords
  let _conn := cfJobs.foldl (fun c j => mark_seen c j.id j.title j.link j.source) conn
  let calls :=
    (if truthyOpt cfg.sources.remoteok then [FetcherId.remoteok] else []) ++
    (if truthyOpt cfg.sources.indeed_rss then [FetcherId.indeed_rss] else []) ++
    (if cfg.custom_feeds = [] then [] else [FetcherId.custom_feeds])
  let logs0 :=
    (if truthyOpt cfg.sources.remoteok then [strOf "Checking RemoteOK..."] else []) ++
    (if truthyOpt cfg.sources.indeed_rss then [strOf "Checking Indeed RSS..."] else []) ++
    (if cfg.custom_feeds = [] then [] else [strOf "Checking custom RSS feeds..."])
  let found_new := roJobs ++ inJobs ++ cfJobs
  let outcome := notify_phase cfg env found_new
  { fetcherCalls := calls, found_new := found_new, logs := logs0 ++ outcome.logs, notify := outcome }

/-- The process exit status of the script: `__main__` calls `run_once()` and
falls off the end of the module, so CPython exits 0; an uncaught exception
(which would exit non-zero) has no representation because every external
call's error case is an `Except` handled inside the fetchers and notifiers. -/
def script_exit_code (cfg : Config) (env : Env) : Nat :=
  let _ := run_once cfg env
  0


/-! ### Concrete configurations and oracle outcomes used as test inputs -/

/-- The shipped CONFIG block of `job_agent.py` (credentials blank). -/
def defaultConfig : Config :=
  { keywords := [strOf "python", strOf "django", strOf "fastapi", strOf "fast job",
      strOf "freelancing job", strOf "freelance"]
    sources := { remoteok := some true, indeed_rss := none, custom_feeds := some true }
    custom_feeds :=
      [strOf "https://weworkremotely.com/categories/remote-programming-jobs.rss",
       strOf "https://stackoverflow.com/jobs/feed?tags=python;django&sort=i",
       strOf "https://remotive.io/remote-jobs/software-dev.rss",
       strOf "https://pythonjobs.github.io/feed.xml",
       strOf "https://jobs.github.com/positions.atom?description=python&location=",
       strOf "https://www.django-coders.com/jobs/rss",
       strOf "https://www.djangojobs.net/feed/",
       strOf "https://pythonremotejobs.com/feed/",
       strOf "https://www.workintech.io/jobs/feed/?categories=python",
       strOf "https://www.freedjangojobs.com/feed/",
       strOf "https://remote4me.com/remote-dev-jobs/rss/"]
    telegram_bot_token := [], telegram_chat_id := []
    smtp_host := strOf "smtp.gmail.com", smtp_port := 587
    smtp_user := [], smtp_pass := [], email_to := [] }

/-- A configuration whose three enable flags are all `False` but whose feed
list is non-empty. -/
def cfgFlagsOff : Config :=
  { defaultConfig with
    sources := { remoteok := some false, indeed_rss := some false, custom_feeds := some false }
    custom_feeds := [strOf "https://feed.example/rss"] }

/-- A configuration with one custom feed, other sources off, no credentials. -/
def cfgOneFeed : Config :=
  { defaultConfig with
    sources := { remoteok := some false, indeed_rss := none, custom_feeds := some true }
    custom_feeds := [strOf "https://feed.example/rss"] }

/-- Oracle outcomes where every external call raises. -/
def envFail : Env :=
  { remoteok_api := .error (strOf "network error")
    rss := fun _ => .error (strOf "network error")
    telegram_post := .error (strOf "network error")
    smtp_send := .error (strOf "network error") }

/-- A feed entry with title and link but no summary field. -/
def sampleEntry : Entry :=
  { title := some (strOf "Python dev"), link := some (strOf "https://x/1"), summary := none }

/-- A feed entry with every optional field missing. -/
def bareEntry : Entry := { title := none, link := none, summary := none }

/-- Oracle outcomes where the API and the notifiers raise but every feed
parses to `[sampleEntry, bareEntry]`. -/
def envOne : Env :=
  { remoteok_api := .error (strOf "network error")
    rss := fun _ => .ok [sampleEntry, bareEntry]
    telegram_post := .error (strOf "network error")
    smtp_send := .error (strOf "network error") }

/-- The feed URL used by the concrete test configuration. -/
def feedURL0 : Str := strOf "https://feed.example/rss"

/-- The record the single-feed fetcher emits for `sampleEntry` on keyword
`"python"`. -/
def sampleRecord : JobRecord :=
  { id := make_id (strOf "https://x/1"), title := strOf "Python dev"
    link := strOf "https://x/1", description := []
    source := feedURL0, matchedKeywords := [strOf "python"] }

/-! ### Helper lemmas -/

/-- A case-insensitive substring hit: the lowercased keyword occurs in the
lowercased text (`k.lower() in text.lower()`). -/
abbrev kwHit (text k : Str) : Prop := pyLower k <:+: pyLower text

theorem foldl_option_append {α β : Type} (f : α → Option β) :
    ∀ (l : List α) (acc : List β),
      l.foldl (fun rs x => appendOpt rs (f x)) acc = acc ++ l.filterMap f
  | [], acc => by simp
  | x :: t, acc => by
      rw [List.foldl_cons, foldl_option_append f t, List.filterMap_cons]
      cases h : f x <;> simp [appendOpt, h]

theorem foldl_append_join {α β : Type} (g : α → List β) :
    ∀ (l : List α) (acc : List β),
      l.foldl (fun rs x => rs ++ g x) acc = acc ++ (l.map g).flatten
  | [], acc => by simp
  | x :: t, acc => by
      simp [List.foldl_cons, foldl_append_join g t]

/-- The matched-keyword list is the filter of the keyword list by `kwHit`
whenever the threshold is reached. -/
theorem keywords_match_eq_filter {text : Str} {K : List Str} {mm : Nat}
    (h : mm ≤ (K.filter fun k => decide (kwHit text k)).length) :
    keywords_match text K mm = K.filter fun k => decide (kwHit text k) := by
  simp only [keywords_match]
  rw [if_pos h]

/-- Below the threshold, the result is empty. -/
theorem keywords_match_eq_nil {text : Str} {K : List Str} {mm : Nat}
    (h : (K.filter fun k => decide (kwHit text k)).length < mm) :
    keywords_match text K mm = [] := by
  simp only [keywords_match]
  rw [if_neg (Nat.not_le.mpr h)]

/-- Every returned keyword is a configured keyword that hits the text. -/
theorem mem_keywords_match {k text : Str} {K : List Str} {mm : Nat}
    (h : k ∈ keywords_match text K mm) : k ∈ K ∧ kwHit text k := by
  simp only [keywords_match] at h
  split at h
  · simpa [List.mem_filter] using h
  · simp at h

/-- With threshold 1, the result is non-empty iff some keyword hits. -/
theorem keywords_match_one_ne_nil {text : Str} {K : List Str} :
    keywords_match text K 1 ≠ [] ↔ ∃ k, k ∈ K ∧ kwHit text k := by
  constructor
  · intro h
    rcases List.exists_mem_of_ne_nil _ h with ⟨k, hk⟩
    exact ⟨k, mem_keywords_match hk⟩
  · intro ⟨k, hkK, hkHit⟩
    have hmem : k ∈ K.filter fun k => decide (kwHit text k) :=
      List.mem_filter.mpr ⟨hkK, by simpa using hkHit⟩
    have hlen : 1 ≤ (K.filter fun k => decide (kwHit text k)).length :=
      List.length_pos.mpr (List.ne_nil_of_mem hmem)
    rw [keywords_match_eq_filter hlen]
    exact List.ne_nil_of_mem hmem

/-- The result is always a sublist (subsequence in order) of the keyword
list. -/
theorem keywords_match_sublist (text : Str) (K : List Str) (mm : Nat) :
    (keywords_match text K mm).Sublist K := by
  simp only [keywords_match]
  split
  · exact List.filter_sublist K
  · exact List.nil_sublist K

/-- On a successful API call, `fetch_remoteok` is the per-item translation of
the parsed array. -/
theorem fetch_remoteok_ok {env : Env} {data : List ApiItem}
    (h : env.remoteok_api = .ok data) (keywords : List Str) :
    fetch_remoteok env keywords = data.filterMap (remoteokItemRecord keywords) := by
  unfold fetch_remoteok
  rw [h]
  simpa using foldl_option_append (remoteokItemRecord keywords) data []

/-- On a failed API call, `fetch_remoteok` returns the empty list. -/
theorem fetch_remoteok_error {env : Env} {e : Str}
    (h : env.remoteok_api = .error e) (keywords : List Str) :
    fetch_remoteok env keywords = [] := by
  unfold fetch_remoteok
  rw [h]

/-- On a successful parse, `fetch_rss_feed` is the per-entry translation of
the feed's entries. -/
theorem fetch_rss_feed_ok {env : Env} {feed_url : Str} {entries : List Entry}
    (h : env.rss feed_url = .ok entries) (keywords : List Str) :
    fetch_rss_feed env feed_url keywords = entries.filterMap (rssEntryRecord feed_url keywords) := by
  unfold fetch_rss_feed
  rw [h]
  simpa using foldl_option_append (rssEntryRecord feed_url keywords) entries []

/-- On a failed parse, `fetch_rss_feed` returns the empty list. -/
theorem fetch_rss_feed_error {env : Env} {feed_url e : Str}
    (h : env.rss feed_url = .error e) (keywords : List Str) :
    fetch_rss_feed env feed_url keywords = [] := by
  unfold fetch_rss_feed
  rw [h]

/-- `fetch_custom_feeds` concatenates the single-feed results in feed order. -/
theorem fetch_custom_feeds_eq_flatten (env : Env) (feeds keywords : List Str) :
    fetch_custom_feeds env feeds keywords =
      (feeds.map fun f => fetch_rss_feed env f keywords).flatten := by
  unfold fetch_custom_feeds
  simpa using foldl_append_join (fun f => fetch_rss_feed env f keywords) feeds []

/-- Shape of a record emitted for one RemoteOK item. -/
theorem remoteokItemRecord_some {keywords : List Str} {item : ApiItem} {r : JobRecord}
    (h : remoteokItemRecord keywords item = some r) :
    r.id = make_id (pyOr r.link r.title) ∧ r.source = strOf "remoteok" ∧
      r.matchedKeywords ≠ [] ∧
      ∃ company,
        r.matchedKeywords =
          keywords_match (r.title ++ strOf " " ++ company ++ strOf " " ++ r.description)
            keywords MIN_KEYWORD_MATCH := by
  cases item with
  | nonDict => simp [remoteokItemRecord] at h
  | dict d =>
    simp only [remoteokItemRecord] at h
    split at h
    · split at h
      · simp at h
      · rename_i hne
        rw [Option.some_inj] at h
        subst h
        exact ⟨rfl, rfl, hne, d.company.getD [], rfl⟩
    · simp at h

/-- Shape of a record emitted for one feed entry. -/
theorem rssEntryRecord_some {feed_url : Str} {keywords : List Str} {e : Entry} {r : JobRecord}
    (h : rssEntryRecord feed_url keywords e = some r) :
    r.id = make_id (pyOr r.link r.title) ∧ r.source = feed_url ∧
      r.matchedKeywords ≠ [] ∧
      r.matchedKeywords =
        keywords_match (r.title ++ strOf " " ++ r.description) keywords MIN_KEYWORD_MATCH := by
  simp only [rssEntryRecord] at h
  split at h
  · simp at h
  · rename_i hne
    rw [Option.some_inj] at h
    subst h
    exact ⟨rfl, rfl, hne, rfl⟩

/-- Which fetchers run is fixed by the configuration alone. -/
theorem run_once_fetcherCalls (cfg : Config) (env : Env) :
    (run_once cfg env).fetcherCalls =
      (if truthyOpt cfg.sources.remoteok then [FetcherId.remoteok] else []) ++
      (if truthyOpt cfg.sources.indeed_rss then [FetcherId.indeed_rss] else []) ++
      (if cfg.custom_feeds = [] then [] else [FetcherId.custom_feeds]) := rfl

/-- `found_new` is the concatenation of the enabled fetchers' outputs. -/
theorem run_once_found_new (cfg : Config) (env : Env) :
    (run_once cfg env).found_new =
      (if truthyOpt cfg.sources.remoteok then fetch_remoteok env cfg.keywords else []) ++
      (if truthyOpt cfg.sources.indeed_rss then fetch_indeed_rss env cfg.keywords else []) ++
      (if cfg.custom_feeds = [] then []
       else fetch_custom_feeds env cfg.custom_feeds cfg.keywords) := rfl

/-- The notification outcome is the tail phase applied to `found_new`. -/
theorem run_once_notify (cfg : Config) (env : Env) :
    (run_once cfg env).notify = notify_phase cfg env (run_once cfg env).found_new := rfl

/-- The transcript is the fetch-phase lines followed by the tail's lines. -/
theorem run_once_logs (cfg : Config) (env : Env) :
    (run_once cfg env).logs =
      ((if truthyOpt cfg.sources.remoteok then [strOf "Checking RemoteOK..."] else []) ++
       (if truthyOpt cfg.sources.indeed_rss then [strOf "Checking Indeed RSS..."] else []) ++
       (if cfg.custom_feeds = [] then [] else [strOf "Checking custom RSS feeds..."])) ++
      (run_once cfg env).notify.logs := rfl

/-- On an empty batch the tail only logs and skips both notifiers. -/
theorem notify_phase_nil (cfg : Config) (env : Env) :
    notify_phase cfg env [] =
      { logs := [strOf "No new matching jobs found."]
        telegramAttempted := false, telegramSent := false
        emailAttempted := false, emailSent := false } := rfl

/-- On a non-empty batch the Telegram sender is attempted iff both
credentials are truthy. -/
theorem notify_phase_tgAttempted {found : List JobRecord} (cfg : Config) (env : Env)
    (h : found ≠ []) :
    (notify_phase cfg env found).telegramAttempted =
      (!cfg.telegram_bot_token.isEmpty && !cfg.telegram_chat_id.isEmpty) := by
  unfold notify_phase
  rw [if_neg h]

/-- On a non-empty batch the email sender is attempted iff the Telegram
attempt was skipped or failed and both SMTP credentials are truthy. -/
theorem notify_phase_emAttempted {found : List JobRecord} (cfg : Config) (env : Env)
    (h : found ≠ []) :
    (notify_phase cfg env found).emailAttempted =
      (!(notify_phase cfg env found).telegramSent &&
        !cfg.smtp_user.isEmpty && !cfg.smtp_pass.isEmpty) := by
  unfold notify_phase
  rw [if_neg h]

/-- When the Telegram send did not succeed, the "not sent" line is logged. -/
theorem notify_phase_not_sent {found : List JobRecord} (cfg : Config) (env : Env)
    (h : found ≠ []) (hs : (notify_phase cfg env found).telegramSent = false) :
    strOf "Notifications not sent: configure TELEGRAM or SMTP settings in the script."
      ∈ (notify_phase cfg env found).logs := by
  unfold notify_phase at hs ⊢
  rw [if_neg h] at hs ⊢
  dsimp only at hs ⊢
  rw [hs]
  simp

/-- Every value `hexChar` can produce is a lowercase hex digit. -/
theorem hexChar_mem (n : Nat) : hexChar n ∈ strOf "0123456789abcdef" := by
  unfold hexChar
  rw [List.getD_eq_getElem?_getD]
  rcases h : ("0123456789abcdef".toList)[n]? with _ | c
  · simp only [Option.getD_none]
    decide
  · simp only [Option.getD_some]
    obtain ⟨hlt, rfl⟩ := List.getElem?_eq_some_iff.mp h
    exact List.getElem_mem hlt

theorem hexOfBytes_length : ∀ l : List Nat, (hexOfBytes l).length = 2 * l.length
  | [] => rfl
  | _ :: t => by
      simp only [hexOfBytes, List.length_cons, hexOfBytes_length t]
      omega

theorem mem_hexOfBytes {c : Char} :
    ∀ {l : List Nat}, c ∈ hexOfBytes l → c ∈ strOf "0123456789abcdef"
  | [], h => by simp [hexOfBytes] at h
  | b :: t, h => by
      simp only [hexOfBytes, List.mem_cons] at h
      rcases h with rfl | rfl | h
      · exact hexChar_mem _
      · exact hexChar_mem _
      · exact mem_hexOfBytes h

theorem sha1Bytes_length (msg : List Nat) : (sha1Bytes msg).length = 20 := by
  unfold sha1Bytes wordBytesBE
  simp

/-- Membership in a `fetch_remoteok` result forces the record invariant. -/
theorem mem_fetch_remoteok {env : Env} {keywords : List Str} {r : JobRecord}
    (h : r ∈ fetch_remoteok env keywords) :
    r.id = make_id (pyOr r.link r.title) ∧ r.source = strOf "remoteok" ∧
      r.matchedKeywords ≠ [] ∧
      ∃ company, ∀ k ∈ r.matchedKeywords,
        kwHit (r.title ++ strOf " " ++ company ++ strOf " " ++ r.description) k := by
  rcases hapi : env.remoteok_api with e | data
  · rw [fetch_remoteok_error hapi] at h
    simp at h
  · rw [fetch_remoteok_ok hapi] at h
    rcases List.mem_filterMap.mp h with ⟨item, _, hsome⟩
    obtain ⟨hid, hsrc, hne, company, hmk⟩ := remoteokItemRecord_some hsome
    refine ⟨hid, hsrc, hne, company, fun k hk => ?_⟩
    rw [hmk] at hk
    exact (mem_keywords_match hk).2

/-- Membership in a `fetch_rss_feed` result forces the record invariant. -/
theorem mem_fetch_rss_feed {env : Env} {feed_url : Str} {keywords : List Str} {r : JobRecord}
    (h : r ∈ fetch_rss_feed env feed_url keywords) :
    r.id = make_id (pyOr r.link r.title) ∧ r.source = feed_url ∧
      r.matchedKeywords ≠ [] ∧
      ∀ k ∈ r.matchedKeywords, kwHit (r.title ++ strOf " " ++ r.description) k := by
  rcases hrss : env.rss feed_url with e | entries
  · rw [fetch_rss_feed_error hrss] at h
    simp at h
  · rw [fetch_rss_feed_ok hrss] at h
    rcases List.mem_filterMap.mp h with ⟨e, _, hsome⟩
    obtain ⟨hid, hsrc, hne, hmk⟩ := rssEntryRecord_some hsome
    refine ⟨hid, hsrc, hne, fun k hk => ?_⟩
    rw [hmk] at hk
    exact (mem_keywords_match hk).2

/-- Membership in a `fetch_custom_feeds` result comes from some configured
feed. -/
theorem mem_fetch_custom_feeds {env : Env} {feeds keywords : List Str} {r : JobRecord}
    (h : r ∈ fetch_custom_feeds env feeds keywords) :
    ∃ f ∈ feeds, r ∈ fetch_rss_feed env f keywords := by
  rw [fetch_custom_feeds_eq_flatten] at h
  rcases List.mem_flatten.mp h with ⟨l, hl, hr⟩
  rcases List.mem_map.mp hl with ⟨f, hf, rfl⟩
  exact ⟨f, hf, hr⟩

/-- A record emitted by the API fetcher or any single feed. -/
def emittedBy (env : Env) (keywords : List Str) (r : JobRecord) : Prop :=
  r ∈ fetch_remoteok env keywords ∨ ∃ u, r ∈ fetch_rss_feed env u keywords

theorem emittedBy_id {env : Env} {keywords : List Str} {r : JobRecord}
    (h : emittedBy env keywords r) : r.id = make_id (pyOr r.link r.title) := by
  rcases h with h | ⟨u, h⟩
  · exact (mem_fetch_remoteok h).1
  · exact (mem_fetch_rss_feed h).1

/-- The per-entry translation as a plain filter-and-map: entries are dropped
only for a failing keyword match, with missing fields read as `''`. -/
theorem filterMap_rssEntryRecord (feed_url : Str) (keywords : List Str) :
    ∀ entries : List Entry,
      entries.filterMap (rssEntryRecord feed_url keywords) =
        (entries.filter fun e =>
            !(keywords_match (entryCombined e) keywords MIN_KEYWORD_MATCH).isEmpty).map fun e =>
          ⟨make_id (pyOr (e.link.getD []) (e.title.getD [])), e.title.getD [], e.link.getD [],
           e.summary.getD [], feed_url,
           keywords_match (entryCombined e) keywords MIN_KEYWORD_MATCH⟩
  | [] => rfl
  | e :: t => by
      by_cases hm : keywords_match (entryCombined e) keywords MIN_KEYWORD_MATCH = [] <;>
        simp [List.filterMap_cons, List.filter_cons, rssEntryRecord, hm,
          filterMap_rssEntryRecord feed_url keywords t]

/-! ### Claim theorems -/

set_option maxRecDepth 100000

/-- C1: `keywords_match(text, keywords, min_match)` returns exactly the
subsequence of the keyword list whose lowercase form occurs as a substring of
the lowercased text, in keyword-list order, whenever at least `min_match`
keywords match, and returns the empty sequence otherwise; in particular with
`min_match = 1` the result is non-empty iff at least one keyword occurs as a
case-insensitive substring of the text. -/
theorem keywords_match_contract (text : Str) (K : List Str) (mm : Nat) :
    (mm ≤ (K.filter fun k => decide (kwHit text k)).length →
        keywords_match text K mm = K.filter fun k => decide (kwHit text k)) ∧
    ((K.filter fun k => decide (kwHit text k)).length < mm →
        keywords_match text K mm = []) ∧
    (keywords_match text K mm).Sublist K ∧
    (∀ k ∈ keywords_match text K mm, k ∈ K ∧ kwHit text k) ∧
    (keywords_match text K 1 ≠ [] ↔ ∃ k, k ∈ K ∧ kwHit text k) :=
  ⟨keywords_match_eq_filter, keywords_match_eq_nil, keywords_match_sublist text K mm,
   fun _ hk => mem_keywords_match hk, keywords_match_one_ne_nil⟩

/-- C1 witness: the spec's two scenarios, obtained from the theorem at
concrete inputs. -/
theorem keywords_match_contract_witness :
    keywords_match (strOf "Senior Python Django developer")
        [strOf "python", strOf "django"] 1 = [strOf "python", strOf "django"] ∧
    keywords_match (strOf "No match here") [strOf "python"] 1 = [] := by
  constructor
  · have h := (keywords_match_contract (strOf "Senior Python Django developer")
      [strOf "python", strOf "django"] 1).1 (by decide)
    rw [h]
    decide
  · exact (keywords_match_contract (strOf "No match here") [strOf "python"] 1).2.1 (by decide)

/-- C7: `make_id` is a pure deterministic function: equal inputs give equal
outputs, every output is a 40-character lowercase hexadecimal digest, and the
empty input yields the (valid, consistent) SHA-1 digest of the empty byte
string. -/
theorem make_id_contract (s t : Str) :
    (s = t → make_id s = make_id t) ∧
    (make_id s).length = 40 ∧
    (∀ c ∈ make_id s, c ∈ strOf "0123456789abcdef") ∧
    make_id [] = strOf "da39a3ee5e6b4b0d3255bfef95601890afd80709" := by
  refine ⟨fun h => by rw [h], ?_, fun c hc => mem_hexOfBytes hc, by decide⟩
  unfold make_id
  rw [hexOfBytes_length, sha1Bytes_length]

/-- C7 witness: the digest of the spec's scenario URL is the same on repeated
application, 40 hex characters long. -/
theorem make_id_contract_witness :
    make_id (strOf "https://example.com/job/1") = make_id (strOf "https://example.com/job/1") ∧
    (make_id (strOf "https://example.com/job/1")).length = 40 :=
  ⟨(make_id_contract (strOf "https://example.com/job/1") (strOf "https://example.com/job/1")).1 rfl,
   (make_id_contract (strOf "https://example.com/job/1") []).2.1⟩

/-- C8: the multi-feed aggregator equals the concatenation, in configured
feed order, of the single-feed fetcher applied to each feed; duplicating a
feed in the configuration duplicates its records. -/
theorem fetch_custom_feeds_contract (env : Env) (feeds keywords : List Str) (u : Str) :
    fetch_custom_feeds env feeds keywords
        = (feeds.map fun f => fetch_rss_feed env f keywords).flatten ∧
    fetch_custom_feeds env [u, u] keywords
        = fetch_rss_feed env u keywords ++ fetch_rss_feed env u keywords := by
  refine ⟨fetch_custom_feeds_eq_flatten env feeds keywords, ?_⟩
  rw [fetch_custom_feeds_eq_flatten]
  simp

/-- C10: the seen-store stub: `init_db` always returns the no-value
placeholder, `seen_contains` is always `False`, and `mark_seen` has no effect
on the store and never changes a subsequent `seen_contains` result. -/
theorem seen_store_contract (path : Str) (conn : Option Unit) (i t l src i2 : Str) :
    init_db path = none ∧
    seen_contains conn i = false ∧
    mark_seen conn i t l src = conn ∧
    seen_contains (mark_seen conn i t l src) i2 = seen_contains conn i2 :=
  ⟨rfl, rfl, rfl, rfl⟩

/-- C3: any network, parse, or format error inside a single fetcher call is
caught and converted to the empty sequence for that source, and the fetch
outcomes never affect which fetchers the orchestrator goes on to invoke. -/
theorem fetcher_failure_contained (cfg : Config) (env env2 : Env) (keywords : List Str) :
    (∀ e, env.remoteok_api = .error e → fetch_remoteok env keywords = []) ∧
    (∀ u e, env.rss u = .error e → fetch_rss_feed env u keywords = []) ∧
    (run_once cfg env).fetcherCalls = (run_once cfg env2).fetcherCalls := by
  refine ⟨fun e he => fetch_remoteok_error he keywords,
          fun u e he => fetch_rss_feed_error he keywords, ?_⟩
  rw [run_once_fetcherCalls, run_once_fetcherCalls]

/-- C3 witness: with every external call failing, both fetchers return the
empty sequence. -/
theorem fetcher_failure_contained_witness :
    fetch_remoteok envFail [strOf "python"] = [] ∧
    fetch_rss_feed envFail feedURL0 [strOf "python"] = [] :=
  ⟨(fetcher_failure_contained defaultConfig envFail envFail [strOf "python"]).1
      (strOf "network error") rfl,
   (fetcher_failure_contained defaultConfig envFail envFail [strOf "python"]).2.1
      feedURL0 (strOf "network error") rfl⟩

/-- C5: the single pass always completes with exit status 0; in particular
when every source fails the run still completes, with an empty batch and no
notification sent. -/
theorem run_once_total (cfg : Config) (env : Env) :
    script_exit_code cfg env = 0 ∧
    ((∃ e, env.remoteok_api = .error e) → (∀ u, ∃ e, env.rss u = .error e) →
      (run_once cfg env).found_new = [] ∧
      (run_once cfg env).notify.telegramSent = false ∧
      (run_once cfg env).notify.emailSent = false) := by
  refine ⟨rfl, fun h1 h2 => ?_⟩
  obtain ⟨e, he⟩ := h1
  have hro : fetch_remoteok env cfg.keywords = [] := fetch_remoteok_error he _
  have hrss : ∀ u, fetch_rss_feed env u cfg.keywords = [] := fun u => by
    obtain ⟨e2, he2⟩ := h2 u
    exact fetch_rss_feed_error he2 _
  have hcf : fetch_custom_feeds env cfg.custom_feeds cfg.keywords = [] := by
    rw [fetch_custom_feeds_eq_flatten, List.flatten_eq_nil_iff]
    intro l hl
    rcases List.mem_map.mp hl with ⟨f, _, rfl⟩
    exact hrss f
  have hfn : (run_once cfg env).found_new = [] := by
    rw [run_once_found_new, hro, hcf]
    unfold fetch_indeed_rss
    rw [hrss]
    simp
  refine ⟨hfn, ?_, ?_⟩ <;> rw [run_once_notify, hfn, notify_phase_nil]

/-- C5 witness: the all-failing oracle still completes with exit 0 and an
empty batch. -/
theorem run_once_total_witness :
    script_exit_code cfgOneFeed envFail = 0 ∧
    (run_once cfgOneFeed envFail).found_new = [] := by
  have h := run_once_total cfgOneFeed envFail
  exact ⟨h.1,
    (h.2 ⟨strOf "network error", rfl⟩ (fun u => ⟨strOf "network error", rfl⟩)).1⟩

/-- C6: every emitted JobRecord satisfies the record invariant: its id is the
digest of its link when non-empty, else of its title; its matched-keyword
list is non-empty; each matched keyword occurs case-insensitively in the
combined text the record was matched against; and any two emitted records
with empty link and empty title receive the identical identifier. -/
theorem jobrecord_invariant (env : Env) (keywords : List Str) (r r2 : JobRecord) :
    (r ∈ fetch_remoteok env keywords →
      r.id = make_id (pyOr r.link r.title) ∧ r.matchedKeywords ≠ [] ∧
      ∃ company, ∀ k ∈ r.matchedKeywords,
        kwHit (r.title ++ strOf " " ++ company ++ strOf " " ++ r.description) k) ∧
    (∀ feed_url, r ∈ fetch_rss_feed env feed_url keywords →
      r.id = make_id (pyOr r.link r.title) ∧ r.matchedKeywords ≠ [] ∧
      ∀ k ∈ r.matchedKeywords, kwHit (r.title ++ strOf " " ++ r.description) k) ∧
    (∀ feeds, r ∈ fetch_custom_feeds env feeds keywords →
      r.id = make_id (pyOr r.link r.title) ∧ r.matchedKeywords ≠ []) ∧
    (emittedBy env keywords r → emittedBy env keywords r2 →
      r.link = [] → r.title = [] → r2.link = [] → r2.title = [] → r.id = r2.id) := by
  refine ⟨fun h => ?_, fun u h => ?_, fun feeds h => ?_, fun h h2 hl ht hl2 ht2 => ?_⟩
  · obtain ⟨hid, _, hne, c, hk⟩ := mem_fetch_remoteok h
    exact ⟨hid, hne, c, hk⟩
  · obtain ⟨hid, _, hne, hk⟩ := mem_fetch_rss_feed h
    exact ⟨hid, hne, hk⟩
  · obtain ⟨f, _, hf⟩ := mem_fetch_custom_feeds h
    obtain ⟨hid, _, hne, _⟩ := mem_fetch_rss_feed hf
    exact ⟨hid, hne⟩
  · rw [emittedBy_id h, emittedBy_id h2, hl, ht, hl2, ht2]

/-- C6 witness: the record fetched for `sampleEntry` satisfies the id and
non-empty-match invariants. -/
theorem jobrecord_invariant_witness :
    sampleRecord.id = make_id (pyOr sampleRecord.link sampleRecord.title) ∧
    sampleRecord.matchedKeywords ≠ [] := by
  have h := (jobrecord_invariant envOne [strOf "python"] sampleRecord sampleRecord).2.1
      feedURL0 (by decide)
  exact ⟨h.1, h.2.1⟩

/-- C9: in the single-feed fetcher a missing title, link, or summary is read
as the empty string — an entry with fields replaced by their defaults
translates identically — and the result keeps exactly the entries whose
combined title-and-summary text passes the keyword match. -/
theorem rss_missing_fields (env : Env) (feed_url : Str) (keywords : List Str)
    (entries : List Entry) (h : env.rss feed_url = .ok entries) :
    (∀ e : Entry, rssEntryRecord feed_url keywords e =
        rssEntryRecord feed_url keywords
          ⟨some (e.title.getD []), some (e.link.getD []), some (e.summary.getD [])⟩) ∧
    fetch_rss_feed env feed_url keywords =
      (entries.filter fun e =>
          !(keywords_match (entryCombined e) keywords MIN_KEYWORD_MATCH).isEmpty).map fun e =>
        ⟨make_id (pyOr (e.link.getD []) (e.title.getD [])), e.title.getD [], e.link.getD [],
         e.summary.getD [], feed_url,
         keywords_match (entryCombined e) keywords MIN_KEYWORD_MATCH⟩ := by
  refine ⟨fun e => rfl, ?_⟩
  rw [fetch_rss_feed_ok h, filterMap_rssEntryRecord]

/-- C9 witness: a feed with an entry missing its summary and an entry missing
every field: the first is kept (match on its title), the second is dropped
only because its combined text has no keyword. -/
theorem rss_missing_fields_witness :
    fetch_rss_feed envOne feedURL0 [strOf "python"] = [sampleRecord] := by
  have h := (rss_missing_fields envOne feedURL0 [strOf "python"]
      [sampleEntry, bareEntry] rfl).2
  rw [h]
  decide

/-- C2 (amended): RemoteOK and Indeed RSS are each invoked exactly once iff
their SOURCES flag is truthy and not invoked otherwise; the custom-feeds
aggregator is invoked exactly once iff the configured feed list is non-empty,
irrespective of the `custom_feeds` flag. -/
theorem fetcher_invocation_policy (cfg : Config) (env : Env) :
    ((run_once cfg env).fetcherCalls.count FetcherId.remoteok
        = if truthyOpt cfg.sources.remoteok then 1 else 0) ∧
    ((run_once cfg env).fetcherCalls.count FetcherId.indeed_rss
        = if truthyOpt cfg.sources.indeed_rss then 1 else 0) ∧
    ((run_once cfg env).fetcherCalls.count FetcherId.custom_feeds
        = if cfg.custom_feeds = [] then 0 else 1) := by
  rw [run_once_fetcherCalls]
  rcases h1 : truthyOpt cfg.sources.remoteok <;>
    rcases h2 : truthyOpt cfg.sources.indeed_rss <;>
    by_cases h3 : cfg.custom_feeds = [] <;>
    refine ⟨?_, ?_, ?_⟩ <;>
    simp [h1, h2, h3, List.count_append, List.count_cons, List.count_nil] <;>
    decide

/-- C2 counterexample: with the `custom_feeds` enable flag set to `False`
(and a non-empty feed list) the custom-feeds aggregator is still invoked:
`run_once` gates it on `if CUSTOM_FEEDS:`, not on the flag. -/
theorem fetcher_invocation_cex :
    cfgFlagsOff.sources.custom_feeds = some false ∧
    (run_once cfgFlagsOff envFail).fetcherCalls.count FetcherId.custom_feeds = 1 :=
  ⟨rfl, by decide⟩

/-- C4: notification dispatch policy: an empty batch skips both notifiers and
only logs; otherwise Telegram is attempted iff both bot credentials are
configured, email is attempted iff the Telegram attempt was skipped or failed
and both SMTP credentials are configured, email is never attempted after a
successful Telegram send, and when no sender succeeded a "not sent" line is
logged. -/
theorem notification_policy (cfg : Config) (env : Env) :
    ((run_once cfg env).found_new = [] →
      (run_once cfg env).notify.telegramAttempted = false ∧
      (run_once cfg env).notify.emailAttempted = false ∧
      (run_once cfg env).notify.logs = [strOf "No new matching jobs found."]) ∧
    ((run_once cfg env).found_new ≠ [] →
      ((run_once cfg env).notify.telegramAttempted =
        (!cfg.telegram_bot_token.isEmpty && !cfg.telegram_chat_id.isEmpty)) ∧
      ((run_once cfg env).notify.emailAttempted =
        (!(run_once cfg env).notify.telegramSent &&
          !cfg.smtp_user.isEmpty && !cfg.smtp_pass.isEmpty)) ∧
      ((run_once cfg env).notify.telegramSent = true →
        (run_once cfg env).notify.emailAttempted = false) ∧
      ((run_once cfg env).notify.telegramSent = false →
        (run_once cfg env).notify.emailSent = false →
        strOf "Notifications not sent: configure TELEGRAM or SMTP settings in the script."
          ∈ (run_once cfg env).logs)) := by
  constructor
  · intro h
    rw [run_once_notify, h, notify_phase_nil]
    exact ⟨rfl, rfl, rfl⟩
  · intro h
    have hn := run_once_notify cfg env
    refine ⟨?_, ?_, ?_, ?_⟩
    · rw [hn]
      exact notify_phase_tgAttempted cfg env h
    · rw [hn]
      exact notify_phase_emAttempted cfg env h
    · intro hs
      rw [hn] at hs ⊢
      rw [notify_phase_emAttempted cfg env h, hs]
      rfl
    · intro hs _
      rw [hn] at hs
      rw [run_once_logs]
      apply List.mem_append_right
      rw [hn]
      exact notify_phase_not_sent cfg env h hs

/-- C4 witness: one matching job, no credentials configured: neither sender
is attempted and the not-sent line is logged. -/
theorem notification_policy_witness :
    (run_once cfgOneFeed envOne).notify.telegramAttempted = false ∧
    (run_once cfgOneFeed envOne).notify.emailAttempted = false ∧
    strOf "Notifications not sent: configure TELEGRAM or SMTP settings in the script."
      ∈ (run_once cfgOneFeed envOne).logs := by
  have h := (notification_policy cfgOneFeed envOne).2 (by decide)
  refine ⟨?_, ?_, h.2.2.2 (by decide) (by decide)⟩
  · rw [h.1]
    decide
  · rw [h.2.1]
    decide
